import Mathlib

/-!
Shallow embedding of `backend/app/main.py` of the azure-rag-chatbot service:
the FastAPI boundary layer (upload endpoint, chat endpoint, interaction log).
The external collaborators `ingest_pdf` and `build_qa_chain` are modelled as
function parameters returning `Except String _` (a raised exception is the
`error` case carrying `str(e)`).
-/

/-- Python `class ChatMessage(BaseModel): role: str; content: str`. -/
structure ChatMessage where
  role : String
  content : String
deriving Repr, DecidableEq

/-- Python `class ChatRequest(BaseModel)`: `doc_id`, `question`,
`history: Optional[List[ChatMessage]] = None`. -/
structure ChatRequest where
  doc_id : String
  question : String
  history : Option (List ChatMessage) := none
deriving Repr, DecidableEq

/-- Python `class Source(BaseModel): page_number: Optional[int]; snippet: str`. -/
structure Source where
  page_number : Option Int
  snippet : String
deriving Repr, DecidableEq

/-- Python `class ChatResponse(BaseModel): answer: str;
sources: Optional[List[Source]] = None`. -/
structure ChatResponse where
  answer : String
  sources : Option (List Source) := none
deriving Repr, DecidableEq

/-- A source document as produced by the chain: `page_content` and a
`metadata` mapping; only integer values are ever read from the metadata
(`doc.metadata.get("page_number")`), so the mapping is embedded as an
association list from strings to integers. -/
structure Document where
  page_content : String
  metadata : List (String × Int)
deriving Repr, DecidableEq

/-- The chain invocation result: `result["answer"]` and
`result.get("source_documents", [])`; the second key may be absent, hence
`Option`. -/
structure ChainResult where
  answer : String
  source_documents : Option (List Document) := none
deriving Repr, DecidableEq

/-- Outcome of a FastAPI endpoint handler body: a returned value, a raised
`HTTPException(status_code, detail)`, or an exception that escapes the
handler unhandled (carrying its text). -/
inductive HandlerResult (α : Type) where
  | ok : α → HandlerResult α
  | httpError : Nat → String → HandlerResult α
  | uncaught : String → HandlerResult α
deriving Repr, DecidableEq

/-- The HTTP status and detail text the client observes for a handler
outcome: an `HTTPException` is rendered with its status and detail, while an
exception that escapes the handler is rendered by the framework's default
error response, status 500 with the fixed text "Internal Server Error"
(the exception's own text is not included). -/
def frameworkResponse {α : Type} : HandlerResult α → Nat × String
  | .ok _ => (200, "")
  | .httpError status detail => (status, detail)
  | .uncaught _ => (500, "Internal Server Error")

/-- Python dict lookup `m.get(k)` over the association-list embedding of the
metadata mapping. -/
def metadataGet (m : List (String × Int)) (k : String) : Option Int :=
  (m.find? (fun p => p.1 == k)).map (fun p => p.2)

/-- Python string slice `s[:n]`: the first `n` characters of `s` (all of `s`
when it is shorter). -/
def pythonSlice (s : String) (n : Nat) : String :=
  String.mk (s.data.take n)

/-- Lines 126-129 of `main.py`: `Source(page_number=doc.metadata.get("page_number"),
snippet=doc.page_content[:200] + "...")`. -/
def mkSource (doc : Document) : Source :=
  { page_number := metadataGet doc.metadata "page_number"
  , snippet := pythonSlice doc.page_content 200 ++ "..." }

/-- Lines 109-113 of `main.py`: starting from `history_text = ""`, for each
message of a present history append `"User"` or `"Assistant"` per the role,
then `": "`, the content and a newline. An absent (`None`) or empty history
leaves `history_text` empty, matching Python truthiness of
`if request.history:`. -/
def historyText (history : Option (List ChatMessage)) : String :=
  match history with
  | none => ""
  | some msgs =>
      msgs.foldl
        (fun acc msg =>
          acc ++ (if msg.role == "user" then "User" else "Assistant")
              ++ ": " ++ msg.content ++ "\n")
        ""

/-- Line 115 of `main.py`:
`question_with_history = history_text + f"User: {request.question}"`. -/
def questionWithHistory (history : Option (List ChatMessage)) (question : String) :
    String :=
  historyText history ++ ("User: " ++ question)

/-- One persisted interaction record, lines 51-56 of `main.py`: fields
`timestamp` (from `datetime.now().isoformat()`, a parameter here), `doc_id`,
`question`, `answer`. -/
structure InteractionRecord where
  timestamp : String
  doc_id : String
  question : String
  answer : String
deriving Repr, DecidableEq

/-- The state of the `data/conversations.json` log file: the file is absent,
holds a JSON array of interaction records (the only content this system ever
writes), or holds content that fails to parse as JSON. -/
inductive FileState where
  | absent : FileState
  | parsed : List InteractionRecord → FileState
  | malformed : String → FileState
deriving Repr, DecidableEq

/-- Lines 49-69 of `main.py`, `save_interaction`: read the existing log (an
absent file or a `json.JSONDecodeError` yields the empty list), append the
new record, rewrite the whole file as a JSON array. -/
def save_interaction (now doc_id question answer : String) (file : FileState) :
    FileState :=
  let record : InteractionRecord :=
    { timestamp := now, doc_id := doc_id, question := question, answer := answer }
  let conversations : List InteractionRecord :=
    match file with
    | .absent => []
    | .parsed l => l
    | .malformed _ => []
  .parsed (conversations ++ [record])

/-- Folding `save_interaction` over a list of calls, each call supplying
`(timestamp, doc_id, question, answer)`. -/
def runSaves (calls : List (String × String × String × String))
    (file : FileState) : FileState :=
  calls.foldl
    (fun fs c => save_interaction c.1 c.2.1 c.2.2.1 c.2.2.2 fs) file

/-- The record a call `(timestamp, doc_id, question, answer)` produces. -/
def mkRecord (c : String × String × String × String) : InteractionRecord :=
  { timestamp := c.1, doc_id := c.2.1, question := c.2.2.1, answer := c.2.2.2 }

/-- A QA chain: `invoke(prompt)` returns a `ChainResult` or raises. -/
def Chain : Type := String → Except String ChainResult

/-- Lines 100-138 of `main.py`, the `POST /chat` handler `chat_with_doc`.
`build_qa_chain` and the saving of the interaction are the effectful
collaborators, passed as `Except`-valued parameters; the second component of
the result is the list of console prints. Control flow: build the chain
(an exception becomes `HTTPException(500, "Error building QA chain: " + e)`),
flatten the history into the prompt, invoke the chain (an exception here is
not caught and escapes the handler), map the source documents to `Source`
values, attempt to save the interaction (an exception is printed, not
raised), and return `ChatResponse(answer=answer, sources=sources)`. -/
def chat_with_doc
    (build_qa_chain : String → Except String Chain)
    (save : String → String → String → Except String Unit)
    (request : ChatRequest) : HandlerResult ChatResponse × List String :=
  match build_qa_chain request.doc_id with
  | .error e => (.httpError 500 ("Error building QA chain: " ++ e), [])
  | .ok qa_chain =>
    match qa_chain (questionWithHistory request.history request.question) with
    | .error e => (.uncaught e, [])
    | .ok result =>
      let answer := result.answer
      let sources := (result.source_documents.getD []).map mkSource
      match save request.doc_id request.question answer with
      | .ok _ => (.ok { answer := answer, sources := some sources }, [])
      | .error e =>
          (.ok { answer := answer, sources := some sources },
           ["Error saving interaction: " ++ e])

/-- An uploaded file as the handler sees it: the client-supplied filename and
declared content type (the bytes themselves are never inspected by this
layer). -/
structure UploadFile where
  filename : String
  content_type : String
deriving Repr, DecidableEq

/-- Success body of `POST /upload-pdf`:
`{"doc_id": doc_id, "message": "PDF processed successfully"}`. -/
structure UploadResult where
  doc_id : String
  message : String
deriving Repr, DecidableEq

/-- A flat file-system view: the list of file paths that exist. -/
structure FS where
  files : List String
deriving Repr, DecidableEq

/-- `os.path.exists p`. -/
def FS.pathExists (fs : FS) (p : String) : Bool :=
  fs.files.contains p

/-- Writing (creating or truncating) the file at `p`. -/
def FS.write (fs : FS) (p : String) : FS :=
  ⟨p :: fs.files⟩

/-- `os.remove p`. -/
def FS.remove (fs : FS) (p : String) : FS :=
  ⟨fs.files.filter (fun q => q != p)⟩

/-- Lines 73-98 of `main.py`, the `POST /upload-pdf` handler `upload_pdf`.
The ingestion collaborator `ingest_pdf` is a parameter; the result carries
the handler outcome, the file system after the handler, and whether
`ingest_pdf` was called. Control flow: reject a content type other than
"application/pdf" with `HTTPException(400, "File must be a PDF.")` before
touching the file system; otherwise write the upload to
`os.path.join("tmp_uploads", file.filename)`, call `ingest_pdf` on that path
(an exception becomes `HTTPException(500, str(e))`), and in a `finally`
block remove the temp file if it exists. -/
def upload_pdf (ingest_pdf : String → Except String String)
    (file : UploadFile) (fs : FS) :
    HandlerResult UploadResult × FS × Bool :=
  if file.content_type != "application/pdf" then
    (.httpError 400 "File must be a PDF.", fs, false)
  else
    let file_path := "tmp_uploads/" ++ file.filename
    let fs1 := fs.write file_path
    let cleanup := fun (fs2 : FS) =>
      if fs2.pathExists file_path then fs2.remove file_path else fs2
    match ingest_pdf file_path with
    | .ok doc_id =>
        (.ok { doc_id := doc_id, message := "PDF processed successfully" },
         cleanup fs1, true)
    | .error e => (.httpError 500 e, cleanup fs1, true)

/-- Whether the character list `pat` occurs contiguously inside `l`. -/
def containsAux (pat : List Char) : List Char → Bool
  | [] => pat.isPrefixOf ([] : List Char)
  | c :: rest => pat.isPrefixOf (c :: rest) || containsAux pat rest

/-- Whether `pat` occurs as a contiguous substring of `s` (character-wise). -/
def strContainsSubstr (s pat : String) : Bool :=
  containsAux pat.data s.data

/-- Follows the spec's words (refinement target for the prompt format): one
line per prior turn, `"User: <content>\n"` for role "user" and
`"Assistant: <content>\n"` otherwise. -/
def specPromptLine (m : ChatMessage) : String :=
  (if m.role == "user" then "User: " else "Assistant: ") ++ m.content ++ "\n"

/-- Concatenation of a list of strings in order. -/
def joinStrings : List String → String
  | [] => ""
  | s :: rest => s ++ joinStrings rest

/-- Follows the spec's words (refinement target): the lines of the prior
turns in given order, followed by the final text `"User: " + question` with
no trailing newline. -/
def specPrompt (hist : List ChatMessage) (q : String) : String :=
  joinStrings (hist.map specPromptLine) ++ ("User: " ++ q)

/-- A source document with short content and a page_number metadata entry. -/
def docShort : Document :=
  { page_content := "short", metadata := [("page_number", 3)] }

/-- A source document whose content is exactly 250 characters long. -/
def docLong : Document :=
  { page_content := String.mk (List.replicate 250 'a'), metadata := [] }

/-- A chain result with one source document. -/
def res1 : ChainResult :=
  { answer := "ans", source_documents := some [docShort] }

/-- A chain that always answers with `res1`. -/
def chain1 : Chain := fun _ => .ok res1

/-- A builder that always returns `chain1`. -/
def build1 : String → Except String Chain := fun _ => .ok chain1

/-- A chain result with no `source_documents` key. -/
def resEmpty : ChainResult := { answer := "A" }

/-- A chain that always answers with `resEmpty`. -/
def chainEmpty : Chain := fun _ => .ok resEmpty

/-- A builder that always returns `chainEmpty`. -/
def buildEmpty : String → Except String Chain := fun _ => .ok chainEmpty

/-- A chain whose invocation always raises "boom". -/
def chainBoom : Chain := fun _ => .error "boom"

/-- A builder that succeeds with the always-raising chain. -/
def buildChainBoom : String → Except String Chain := fun _ => .ok chainBoom

/-- A builder that always raises "boom". -/
def buildBoom : String → Except String Chain := fun _ => .error "boom"

/-- A save collaborator that always succeeds. -/
def save0 : String → String → String → Except String Unit := fun _ _ _ => .ok ()

/-- A save collaborator that always raises "disk full". -/
def saveFail : String → String → String → Except String Unit :=
  fun _ _ _ => .error "disk full"

/-- The chat request of the spec's scenario. -/
def req0 : ChatRequest :=
  { doc_id := "doc1", question := "What is X?"
  , history := some [{ role := "user", content := "Hi" }] }

/-- An upload whose declared content type is `text/plain`. -/
def fileTxt : UploadFile :=
  { filename := "notes.txt", content_type := "text/plain" }

/-- An upload whose declared content type is `application/pdf`. -/
def filePdf : UploadFile :=
  { filename := "report.pdf", content_type := "application/pdf" }

/-- An ingestion collaborator that always succeeds with "doc1". -/
def ingestOk : String → Except String String := fun _ => .ok "doc1"

/-- An ingestion collaborator that always raises. -/
def ingestFail : String → Except String String := fun _ => .error "no deployment"

/-- An empty file system. -/
def fs0 : FS := { files := [] }

/-- Helper: the history fold with an arbitrary accumulator prepends the
accumulator to the joined per-turn lines. -/
theorem historyFold_eq (msgs : List ChatMessage) (acc : String) :
    msgs.foldl
        (fun acc msg =>
          acc ++ (if msg.role == "user" then "User" else "Assistant")
              ++ ": " ++ msg.content ++ "\n")
        acc = acc ++ joinStrings (msgs.map specPromptLine) := by
  induction msgs generalizing acc with
  | nil => simp [joinStrings]
  | cons m t ih =>
      simp only [List.foldl_cons, List.map_cons, joinStrings, ih]
      cases h : m.role == "user" <;>
        simp [specPromptLine, h, String.append_assoc]

/-- Helper: the rendered history of present turns is the join of the
per-turn lines. -/
theorem historyText_some (msgs : List ChatMessage) :
    historyText (some msgs) = joinStrings (msgs.map specPromptLine) := by
  have h := historyFold_eq msgs ""
  simp only [historyText]
  rw [h]
  simp

/-- C1: the flattened prompt passed to the chain's invoke emits, per prior
turn in order, one line "User: content\n" or "Assistant: content\n" by role,
followed by "User: question" with no trailing newline; in particular the
spec's scenario with history `[{role: user, content: Hi}]` and question
"What is X?" yields "User: Hi\nUser: What is X?". -/
theorem chat_prompt_flattening :
    (∀ hist q, questionWithHistory (some hist) q = specPrompt hist q) ∧
    (∀ q, questionWithHistory none q = specPrompt [] q) ∧
    questionWithHistory (some [{ role := "user", content := "Hi" }]) "What is X?"
      = "User: Hi\nUser: What is X?" := by
  refine ⟨fun hist q => ?_, fun q => ?_, by decide⟩
  · simp only [questionWithHistory, specPrompt, historyText_some]
  · simp [questionWithHistory, historyText, specPrompt, joinStrings]

/-- C9: with an absent (None) or empty history the prompt passed to invoke
is exactly "User: " followed by the question, with no leading or trailing
newline. -/
theorem chat_prompt_empty_history (q : String) :
    questionWithHistory none q = "User: " ++ q ∧
    questionWithHistory (some []) q = "User: " ++ q := by
  constructor <;> simp [questionWithHistory, historyText]

/-- Helper: running saves from a parsed array appends the produced records
in call order. -/
theorem runSaves_parsed (calls : List (String × String × String × String))
    (l : List InteractionRecord) :
    runSaves calls (.parsed l) = .parsed (l ++ calls.map mkRecord) := by
  induction calls generalizing l with
  | nil => simp [runSaves]
  | cons c t ih =>
      simp only [runSaves, List.foldl_cons, List.map_cons] at ih ⊢
      rw [show (save_interaction c.1 c.2.1 c.2.2.1 c.2.2.2 (FileState.parsed l))
            = FileState.parsed (l ++ [mkRecord c]) from rfl, ih]
      simp

/-- C3: starting from a non-existent log file, a sequence of calls to
save_interaction leaves the log a JSON array with exactly one record per
call, in call order, each record carrying the submitted timestamp, doc_id,
question and answer; and an append to an existing array only adds one record
at the end, mutating or deleting nothing. -/
theorem log_append_roundtrip :
    (∀ c calls, runSaves (c :: calls) FileState.absent
        = FileState.parsed ((c :: calls).map mkRecord)) ∧
    (∀ c calls, ((c :: calls).map mkRecord).length = (c :: calls).length) ∧
    (∀ now d q a l, save_interaction now d q a (FileState.parsed l)
        = FileState.parsed (l ++
            [{ timestamp := now, doc_id := d, question := q, answer := a }])) := by
  refine ⟨fun c calls => ?_, fun c calls => by simp, fun now d q a l => rfl⟩
  show runSaves calls (save_interaction c.1 c.2.1 c.2.2.1 c.2.2.2 FileState.absent)
      = FileState.parsed ((c :: calls).map mkRecord)
  rw [show save_interaction c.1 c.2.1 c.2.2.1 c.2.2.2 FileState.absent
        = FileState.parsed [mkRecord c] from rfl, runSaves_parsed]
  simp

/-- C8: when the log file exists but fails to parse as JSON, the append
proceeds as from an empty log and the write replaces the unparseable content
with a JSON array holding only the new record. -/
theorem malformed_log_treated_empty (content now d q a : String) :
    save_interaction now d q a (FileState.malformed content)
      = FileState.parsed
          [{ timestamp := now, doc_id := d, question := q, answer := a }] := rfl

/-- C4: each Source's snippet is the first 200 characters of the document's
page_content with "..." appended unconditionally — for content of length at
most 200 the snippet is the whole content plus "...", and for content of
exactly 250 characters it is the first 200 characters plus "..." (203
characters in all) — and page_number is the page_number metadata entry when
present, else absent. -/
theorem source_snippet_truncation :
    (∀ doc : Document, doc.page_content.data.length ≤ 200 →
        (mkSource doc).snippet = doc.page_content ++ "...") ∧
    (∀ doc : Document, doc.page_content.data.length = 250 →
        (mkSource doc).snippet.data
            = doc.page_content.data.take 200 ++ ['.', '.', '.'] ∧
          (mkSource doc).snippet.data.length = 203) ∧
    (∀ doc : Document, ∀ n : Int,
        metadataGet doc.metadata "page_number" = some n →
        (mkSource doc).page_number = some n) ∧
    (∀ doc : Document,
        metadataGet doc.metadata "page_number" = none →
        (mkSource doc).page_number = none) := by
  refine ⟨fun doc h => ?_, fun doc h => ⟨?_, ?_⟩, fun doc n h => h, fun doc h => h⟩
  · show String.mk (doc.page_content.data.take 200) ++ "..." = _
    rw [List.take_of_length_le h]
  · show (String.mk (doc.page_content.data.take 200) ++ "...").data = _
    rw [String.data_append]
  · show (String.mk (doc.page_content.data.take 200) ++ "...").data.length = 203
    rw [String.data_append]
    simp [List.length_take, h]

/-- Witness for C4 at concrete documents: content "short" (length 5) and a
250-character content. -/
theorem source_snippet_truncation_witness :
    (mkSource docShort).snippet = "short" ++ "..." ∧
    ((mkSource docLong).snippet.data
        = docLong.page_content.data.take 200 ++ ['.', '.', '.'] ∧
      (mkSource docLong).snippet.data.length = 203) ∧
    (mkSource docShort).page_number = some 3 :=
  ⟨source_snippet_truncation.1 docShort (by decide),
   source_snippet_truncation.2.1 docLong
     (by show (List.replicate 250 'a').length = 250
         exact List.length_replicate 250 'a'),
   source_snippet_truncation.2.2.1 docShort 3 (by decide)⟩

/-- C5: an upload whose declared content type is not "application/pdf" is
answered with HTTP 400 and detail "File must be a PDF.", the file system is
untouched (no temp file written) and the ingestion collaborator is not
called. -/
theorem upload_rejects_non_pdf (ingest : String → Except String String)
    (file : UploadFile) (fs : FS)
    (h : file.content_type ≠ "application/pdf") :
    upload_pdf ingest file fs
      = (.httpError 400 "File must be a PDF.", fs, false) := by
  simp [upload_pdf, h]

/-- Witness for C5: the spec's scenario, content type "text/plain". -/
theorem upload_rejects_non_pdf_witness :
    upload_pdf ingestOk fileTxt fs0
      = (.httpError 400 "File must be a PDF.", fs0, false) :=
  upload_rejects_non_pdf ingestOk fileTxt fs0 (by decide)

/-- C6: for an upload that passes the content-type check, the temp file at
the path derived from the client-supplied filename does not exist once the
response is produced, whatever the ingestion collaborator does (success or
raise). -/
theorem upload_temp_file_cleanup (ingest : String → Except String String)
    (file : UploadFile) (fs : FS)
    (h : file.content_type = "application/pdf") :
    ((upload_pdf ingest file fs).2.1).pathExists
        ("tmp_uploads/" ++ file.filename) = false := by
  cases hi : ingest ("tmp_uploads/" ++ file.filename) <;>
    simp [upload_pdf, h, hi, FS.pathExists, FS.write, FS.remove]

/-- Witness for C6: a PDF upload whose ingestion raises. -/
theorem upload_temp_file_cleanup_witness :
    ((upload_pdf ingestFail filePdf fs0).2.1).pathExists
        ("tmp_uploads/" ++ filePdf.filename) = false :=
  upload_temp_file_cleanup ingestFail filePdf fs0 rfl

/-- C7: when chain build and invocation succeed, a failure while logging the
interaction is never surfaced to the client — the handler still returns the
200 ChatResponse with the answer and sources, and the error is only printed
to the console. -/
theorem chat_logging_failure_swallowed
    (build : String → Except String Chain)
    (save : String → String → String → Except String Unit)
    (req : ChatRequest) (chain : Chain) (result : ChainResult) (e : String)
    (h1 : build req.doc_id = .ok chain)
    (h2 : chain (questionWithHistory req.history req.question) = .ok result)
    (h3 : save req.doc_id req.question result.answer = .error e) :
    chat_with_doc build save req
      = (.ok { answer := result.answer
             , sources := some ((result.source_documents.getD []).map mkSource) },
         ["Error saving interaction: " ++ e]) := by
  simp [chat_with_doc, h1, h2, h3]

/-- Witness for C7: a succeeding chain with one source document and a save
collaborator that raises "disk full". -/
theorem chat_logging_failure_swallowed_witness :
    chat_with_doc build1 saveFail req0
      = (.ok { answer := res1.answer
             , sources := some ((res1.source_documents.getD []).map mkSource) },
         ["Error saving interaction: " ++ "disk full"]) :=
  chat_logging_failure_swallowed build1 saveFail req0 chain1 res1 "disk full"
    rfl rfl rfl

/-- C2 counterexample: when chain invocation raises ("boom"), the exception
escapes the handler and the client-visible response is the framework's
generic 500 "Internal Server Error", whose detail does not contain the
collaborator's error text — contradicting the claim that the detail is a
wrapped message containing that text. -/
theorem chat_invoke_error_counterexample :
    (chat_with_doc buildChainBoom save0 req0).1 = HandlerResult.uncaught "boom" ∧
    frameworkResponse (chat_with_doc buildChainBoom save0 req0).1
      = (500, "Internal Server Error") ∧
    strContainsSubstr "Internal Server Error" "boom" = false :=
  ⟨rfl, rfl, by decide⟩

/-- C2 (amended): a chain-build failure is answered with HTTP 500 and detail
"Error building QA chain: " followed by the exception text; a
chain-invocation failure is not caught by the handler — the exception
escapes and the client sees the framework's generic 500 "Internal Server
Error" without the collaborator's text. -/
theorem chat_error_translation :
    (∀ (build : String → Except String Chain) save req e,
        build req.doc_id = .error e →
        (chat_with_doc build save req).1
            = .httpError 500 ("Error building QA chain: " ++ e) ∧
          frameworkResponse (chat_with_doc build save req).1
            = (500, "Error building QA chain: " ++ e)) ∧
    (∀ (build : String → Except String Chain) save req (chain : Chain) e,
        build req.doc_id = .ok chain →
        chain (questionWithHistory req.history req.question) = .error e →
        (chat_with_doc build save req).1 = .uncaught e ∧
          frameworkResponse (chat_with_doc build save req).1
            = (500, "Internal Server Error")) := by
  constructor
  · intro build save req e h
    constructor <;> simp [chat_with_doc, h, frameworkResponse]
  · intro build save req chain e h1 h2
    constructor <;> simp [chat_with_doc, h1, h2, frameworkResponse]

/-- Witness for the amended C2: a builder raising "boom", and a chain whose
invocation raises "boom". -/
theorem chat_error_translation_witness :
    ((chat_with_doc buildBoom save0 req0).1
        = .httpError 500 ("Error building QA chain: " ++ "boom") ∧
      frameworkResponse (chat_with_doc buildBoom save0 req0).1
        = (500, "Error building QA chain: " ++ "boom")) ∧
    ((chat_with_doc buildChainBoom saveFail req0).1 = .uncaught "boom" ∧
      frameworkResponse (chat_with_doc buildChainBoom saveFail req0).1
        = (500, "Internal Server Error")) :=
  ⟨chat_error_translation.1 buildBoom save0 req0 "boom" rfl,
   chat_error_translation.2 buildChainBoom saveFail req0 chainBoom "boom" rfl rfl⟩

/-- C10: whenever the chat handler returns successfully, the sources field
is a present list, never absent; and when the chain result has no
source_documents (or an empty sequence of them) the response carries the
empty list of sources. -/
theorem chat_sources_always_present :
    (∀ (build : String → Except String Chain) save req resp console,
        chat_with_doc build save req = (.ok resp, console) →
        resp.sources ≠ none) ∧
    (∀ (build : String → Except String Chain) save req (chain : Chain) result,
        build req.doc_id = .ok chain →
        chain (questionWithHistory req.history req.question) = .ok result →
        result.source_documents.getD [] = [] →
        (chat_with_doc build save req).1
          = .ok { answer := result.answer, sources := some [] }) := by
  constructor
  · intro build save req resp console heq
    cases hb : build req.doc_id with
    | error e => simp [chat_with_doc, hb] at heq
    | ok chain =>
      cases hc : chain (questionWithHistory req.history req.question) with
      | error e => simp [chat_with_doc, hb, hc] at heq
      | ok result =>
        cases hs : save req.doc_id req.question result.answer with
        | ok u =>
            simp [chat_with_doc, hb, hc, hs] at heq
            rw [← heq.1]
            simp
        | error e =>
            simp [chat_with_doc, hb, hc, hs] at heq
            rw [← heq.1]
            simp
  · intro build save req chain result h1 h2 h3
    cases hs : save req.doc_id req.question result.answer <;>
      simp [chat_with_doc, h1, h2, h3, hs]

/-- Witness for C10: a chain result with no source_documents key yields a
present, empty sources list. -/
theorem chat_sources_always_present_witness :
    (ChatResponse.mk "A" (some [])).sources ≠ none ∧
    (chat_with_doc buildEmpty save0 req0).1
      = .ok { answer := resEmpty.answer, sources := some [] } :=
  ⟨chat_sources_always_present.1 buildEmpty save0 req0
      (ChatResponse.mk "A" (some [])) [] rfl,
   chat_sources_always_present.2 buildEmpty save0 req0 chainEmpty resEmpty
      rfl rfl rfl⟩
